import Mathlib

/-!
# Verification of the `ArtificialHorizon` renderer (ros_groundstation)

Shallow embedding of `src/ros_groundstation/artificial_horizon.py`.

Every renderer method of the `ArtificialHorizon` Qt widget is modelled as a
pure function from a per-frame context to the list of primitive draw calls it
issues to the painter.  Coordinates are rationals (the Python code computes
with floats built from exact decimal literals; all boundary comparisons the
claims talk about are exact decimal arithmetic, which ℚ reproduces exactly).
Integer telemetry values (`roll`, `pitch`, `speed`, `altitude`, `heading`,
`numSat`) are `Int`, as in the source, which floors them to ints on frame
entry.  The painter's transform state is interpreted separately as a real
affine map, with `rotate` using real sine/cosine.
-/

namespace ArtificialHorizon

/-- Python's `range(a, b)` over integers: the list `a, a+1, …, b-1`. -/
def intRange (a b : ℤ) : List ℤ :=
  (List.range (b - a).toNat).map (fun (k : ℕ) => a + (k : ℤ))

theorem mem_intRange {a b i : ℤ} : i ∈ intRange a b ↔ a ≤ i ∧ i < b := by
  simp only [intRange, List.mem_map, List.mem_range]
  constructor
  · rintro ⟨k, hk, rfl⟩
    omega
  · rintro ⟨h1, h2⟩
    exact ⟨(i - a).toNat, by omega, by omega⟩

/-- Pen/brush colors used by the widget (Qt named colors and RGBA values). -/
inductive Color where
  | red | green | yellow | white | black
  | rgba (r g b a : ℤ)
  deriving DecidableEq, Repr

/-- One primitive call issued to the `QPainter` rendering surface.
`translate`/`rotate` are the transform operations; `rotate` takes degrees.
`textRect` is `drawText(QRectF(p1, p2), AlignCenter, s)`;
`voltageText` is the battery overload `drawText(rect, "%.1fV" % v, opt)`,
carrying the raw voltage (formatting to one decimal happens at the
rendering surface). -/
inductive DrawCmd where
  | translate (dx dy : ℚ)
  | rotate (angleDeg : ℚ)
  | setPen (c : Color) (width : ℚ)
  | setBrush (c : Color)
  | fillRect (x y w h : ℚ) (c : Color)
  | line (x1 y1 x2 y2 : ℚ)
  | text (x y : ℚ) (s : String)
  | textRect (x1 y1 x2 y2 : ℚ) (s : String)
  | polygon (pts : List (ℚ × ℚ))
  | convexPolygon (pts : List (ℚ × ℚ))
  | arc (x y w h : ℚ) (startA spanA : ℤ)
  | voltageText (x y w h : ℚ) (v : ℚ)
  deriving DecidableEq, Repr

/-- Per-redraw frame context: viewport size, the integer telemetry extracted
at the top of `drawArtificialHorizon` (lines 91–96), and the state of the
optional channels read from the `ConComSub` / `ConInSub` / `BatterySub`
subscribers.  `theta_c_deg` is `math.degrees(ConInSub.theta_c)` (the code
converts the commanded pitch from radians to degrees before use). -/
structure Ctx where
  w : ℚ
  h : ℚ
  roll : ℤ
  pitch : ℤ
  speed : ℤ
  altitude : ℤ
  heading : ℤ
  numSat : ℤ
  conComEnabled : Bool
  va_c : ℚ
  h_c : ℚ
  conInEnabled : Bool
  theta_c_deg : ℚ
  batteryEnabled : Bool
  voltage : ℚ
  voltage_percent : ℚ
  deriving DecidableEq

/-- `pitchInterval = 0.013`, the fraction of viewport height per degree. -/
def pitchInterval : ℚ := 0.013

/-- `{c with the three optional-channel flags replaced}`. -/
def setFlags (c : Ctx) (b1 b2 b3 : Bool) : Ctx :=
  { c with conComEnabled := b1, conInEnabled := b2, batteryEnabled := b3 }

/-! ## Heading tape labels (`drawHeadingIndicator`, lines 174–187) -/

/-- Wrap applied to the loop candidate (lines 180–182):
`if i < 0: i += 360` followed by `i = i % 360` (Python `%`, which agrees
with `Int.emod` for a positive modulus). -/
def normalize360 (i : ℤ) : ℤ := (if i < 0 then i + 360 else i) % 360

/-- The `directions` dict literal of line 174.  Note the key `215` (not
`225`) for `"SW"`, exactly as in the source. -/
def directions (i : ℤ) : Option String :=
  if i = 0 then some "N"
  else if i = 45 then some "NE"
  else if i = 90 then some "E"
  else if i = 135 then some "SE"
  else if i = 180 then some "S"
  else if i = 215 then some "SW"
  else if i = 270 then some "W"
  else if i = 315 then some "NW"
  else none

/-- Label text for heading-tape candidate `i` (lines 180–185): wrap `i`,
set `text = str(i)`, then replace it by `directions[i]` when the wrapped
value is a key of the dict. -/
def headingText (i : ℤ) : String :=
  match directions (normalize360 i) with
  | some d => d
  | none => toString (normalize360 i)

/-- Commands issued by one iteration of the heading loop (lines 176–187):
nothing unless `i % 10 == 0`; otherwise a tick line and a label.  The tick
x-coordinate is computed (line 178) before the wrap of lines 180–182, from
the raw `i`; the label string is computed after the wrap, and its draw point
is `x + 7 - 8*len(text)` (line 187). -/
def headingCandidateCmds (w h : ℚ) (hd i : ℤ) : List DrawCmd :=
  if i % 10 = 0 then
    let x : ℚ := w * 0.5 - ((hd - i : ℤ) : ℚ) * 0.01 * w
    let y : ℚ := h - h * 0.1
    let t := headingText i
    [.line x y x (y + 5), .text (x + 7 - 8 * (t.length : ℚ)) (y + 22) t]
  else []

/-- Modelled from the claim's words, for comparison only (claim C10): the
same candidate processing but with the wrapping of lines 180–182 omitted,
so the label text is computed from the raw candidate. -/
def headingCandidateCmdsNoWrap (w h : ℚ) (hd i : ℤ) : List DrawCmd :=
  if i % 10 = 0 then
    let x : ℚ := w * 0.5 - ((hd - i : ℤ) : ℚ) * 0.01 * w
    let y : ℚ := h - h * 0.1
    let t := match directions i with
      | some d => d
      | none => toString i
    [.line x y x (y + 5), .text (x + 7 - 8 * (t.length : ℚ)) (y + 22) t]
  else []

/-! ## Tick candidate sets of the three tapes

Each tape loop is `for i in range(v - K, v + K): if <pred>: <draw>`; the
list below is exactly the set of `i` for which the draw body executes. -/

/-- Airspeed loop (lines 213–214): `range(speed-29, speed+29)` with
`i % 10 == 0 and i >= 0`. -/
def speedTickValues (v : ℤ) : List ℤ :=
  (intRange (v - 29) (v + 29)).filter (fun i => decide (i % 10 = 0 ∧ 0 ≤ i))

/-- Altitude loop (lines 260–261): `range(altitude-29, altitude+29)` with
`i % 10 == 0` (no non-negativity test). -/
def altitudeTickValues (v : ℤ) : List ℤ :=
  (intRange (v - 29) (v + 29)).filter (fun i => decide (i % 10 = 0))

/-- Heading loop (lines 176–177): `range(heading-49, heading+49)` with
`i % 10 == 0`. -/
def headingTickValues (hd : ℤ) : List ℤ :=
  (intRange (hd - 49) (hd + 49)).filter (fun i => decide (i % 10 = 0))

/-! ## Renderers -/

/-- `drawSky` (lines 145–150). -/
def drawSky (c : Ctx) : List DrawCmd :=
  [.fillRect 0 0 c.w c.h (.rgba 38 89 242 255)]

/-- `drawGround` (lines 152–161). -/
def drawGround (c : Ctx) : List DrawCmd :=
  [.fillRect (-300) (c.h / 2) (c.w + 600) (c.h * (0.5 + pitchInterval * 180)) (.rgba 84 54 10 255),
   .setPen .white 2,
   .line (-300) (c.h / 2) (c.w + 600) (c.h / 2)]

/-- `drawHeadingIndicator` (lines 163–200): translucent box, tick loop,
then the black pointer polygon and the centered current-heading text. -/
def drawHeadingIndicator (c : Ctx) : List DrawCmd :=
  [.setPen .yellow 2,
   .fillRect ((c.w - c.w * 1.0) / 2) (c.h - c.h * 0.1) (c.w * 1.0) (c.h * 0.1) (.rgba 100 100 100 200)]
  ++ (intRange (c.heading - 49) (c.heading + 49)).flatMap (headingCandidateCmds c.w c.h c.heading)
  ++ [.setBrush .black,
      .setPen (.rgba 0 0 0 0) 2,
      .polygon [(c.w * 0.46, c.h), (c.w * 0.46, c.h - c.h * 0.1 * 0.9),
                (c.w * 0.50, c.h - c.h * 0.1), (c.w * 0.54, c.h - c.h * 0.1 * 0.9),
                (c.w * 0.54, c.h)],
      .setPen (.rgba 255 255 0 255) 2,
      .textRect (c.w * 0.46) c.h (c.w * 0.54) (c.h - c.h * 0.1 * 0.9)
        (toString c.heading ++ "°")]

/-- Commands of one executed airspeed tick (lines 215–219). -/
def speedTickCmds (w h : ℚ) (speed i : ℤ) : List DrawCmd :=
  let boxW := w * 0.13
  let y := h * 0.5 + ((speed - i : ℤ) : ℚ) * 0.01 * h
  let t := toString i
  [.line (boxW - 5) y boxW y, .text (boxW - 10 - 8 * (t.length : ℚ)) (y + 5) t]

/-- The commanded-airspeed triangle (lines 221–231): drawn exactly when the
mapped y-coordinate lies (inclusively) inside the panel's vertical extent;
otherwise nothing is emitted (no clamping). -/
def speedCommandMarker (w h : ℚ) (speed : ℤ) (va_c : ℚ) : List DrawCmd :=
  let boxW := w * 0.13
  let boxH := h * 0.6
  let va_c_y := h * 0.5 + ((speed : ℚ) - va_c) * 0.01 * h
  if (h - boxH) / 2 ≤ va_c_y ∧ va_c_y ≤ (h + boxH) / 2 then
    let triH := w * 0.02
    let triV := h * 0.01
    [.convexPolygon [(boxW, va_c_y), (boxW + triH, triV + va_c_y), (boxW + triH, -triV + va_c_y)]]
  else []

/-- `drawAirspeedIndicator` up to the commanded marker (lines 202–219). -/
def speedTapePre (c : Ctx) : List DrawCmd :=
  [.setPen .yellow 2,
   .fillRect 0 ((c.h - c.h * 0.6) / 2) (c.w * 0.13) (c.h * 0.6) (.rgba 100 100 100 200)]
  ++ (speedTickValues c.speed).flatMap (speedTickCmds c.w c.h c.speed)

/-- `drawAirspeedIndicator` after the commanded marker (lines 232–244). -/
def speedTapePost (c : Ctx) : List DrawCmd :=
  [.setBrush .black,
   .setPen (.rgba 0 0 0 0) 2,
   .polygon [(0, c.h * 0.46), (c.w * 0.13 * 0.9, c.h * 0.46), (c.w * 0.13, c.h * 0.5),
             (c.w * 0.13 * 0.9, c.h * 0.54), (0, c.h * 0.54)],
   .setPen (.rgba 255 255 0 255) 2,
   .textRect 0 (c.h * 0.46) (c.w * 0.13 * 0.9) (c.h * 0.54) (toString c.speed ++ " m/s"),
   .text 5 ((c.h - c.h * 0.6) / 2 - 5) "Airspeed (m/s IAS)"]

/-- `drawAirspeedIndicator` (lines 202–244): the commanded-marker segment is
emitted only when `ConComSub.enabled`. -/
def drawAirspeedIndicator (c : Ctx) : List DrawCmd :=
  speedTapePre c
  ++ (if c.conComEnabled then speedCommandMarker c.w c.h c.speed c.va_c else [])
  ++ speedTapePost c

/-- Commands of one executed altitude tick (lines 262–266). -/
def altitudeTickCmds (w h : ℚ) (alt i : ℤ) : List DrawCmd :=
  let x := w - w * 0.13
  let y := h * 0.5 + ((alt - i : ℤ) : ℚ) * 0.01 * h
  let t := toString i
  [.line x y (x + 5) y, .text (x + 10) (y + 5) t]

/-- The commanded-altitude triangle (lines 269–280), same inclusion rule as
the airspeed one, pointing left from the right-edge panel. -/
def altitudeCommandMarker (w h : ℚ) (alt : ℤ) (h_c : ℚ) : List DrawCmd :=
  let boxW := w * 0.13
  let boxH := h * 0.6
  let alt_c_y := h * 0.5 + ((alt : ℚ) - h_c) * 0.01 * h
  if (h - boxH) / 2 ≤ alt_c_y ∧ alt_c_y ≤ (h + boxH) / 2 then
    let triH := w * 0.02
    let triV := h * 0.01
    [.convexPolygon [(w - boxW, alt_c_y), (w - boxW - triH, triV + alt_c_y),
                     (w - boxW - triH, -triV + alt_c_y)]]
  else []

/-- `drawAltitudeIndicator` up to the commanded marker (lines 248–268);
the `setBrush(yellow)` of line 268 happens before the enabled test. -/
def altTapePre (c : Ctx) : List DrawCmd :=
  [.setPen .yellow 2,
   .fillRect (c.w - c.w * 0.13) ((c.h - c.h * 0.6) / 2) (c.w * 0.13) (c.h * 0.6) (.rgba 100 100 100 200)]
  ++ (altitudeTickValues c.altitude).flatMap (altitudeTickCmds c.w c.h c.altitude)
  ++ [.setBrush .yellow]

/-- `drawAltitudeIndicator` after the commanded marker (lines 281–294). -/
def altTapePost (c : Ctx) : List DrawCmd :=
  [.setBrush .black,
   .setPen (.rgba 0 0 0 0) 2,
   .polygon [(c.w, c.h * 0.46), (c.w - c.w * 0.13 * 0.9, c.h * 0.46), (c.w - c.w * 0.13, c.h * 0.5),
             (c.w - c.w * 0.13 * 0.9, c.h * 0.54), (c.w, c.h * 0.54)],
   .setPen (.rgba 255 255 0 255) 2,
   .textRect c.w (c.h * 0.46) (c.w - c.w * 0.13 * 0.9) (c.h * 0.54) (toString c.altitude ++ " m"),
   .text (c.w - c.w * 0.13 + 5) ((c.h - c.h * 0.6) / 2 - 5) "Altitude"]

/-- `drawAltitudeIndicator` (lines 248–294). -/
def drawAltitudeIndicator (c : Ctx) : List DrawCmd :=
  altTapePre c
  ++ (if c.conComEnabled then altitudeCommandMarker c.w c.h c.altitude c.h_c else [])
  ++ altTapePost c

/-- One tick of the turn-bank arc (lines 319–330): rotate the frame about
the arc center by the tick angle, draw, rotate back by the negated angle. -/
def turnTickCmds (w h : ℚ) (angle : ℤ) : List DrawCmd :=
  let radius := w * 0.3
  let yOff := h * 0.10
  let tickH := h * 0.02
  let x := w / 2
  let xC := w / 2
  let yC := radius + yOff
  let t := toString angle
  [.translate xC yC, .rotate (angle : ℚ), .translate (-xC) (-yC),
   .line x yOff x (yOff - tickH),
   .text (x - 4 * (t.length : ℚ)) (yOff - tickH - 5) t,
   .translate xC yC, .rotate (-(angle : ℚ)), .translate (-xC) (-yC)]

/-- `drawTurnIndicator` (lines 296–347): arc, the eleven angle ticks, then
the roll pointer drawn inside a rotate-by-roll / rotate-back pair. -/
def drawTurnIndicator (c : Ctx) : List DrawCmd :=
  [.setBrush .white,
   .setPen .white 2,
   .arc (c.w * 0.5 - c.w * 0.3) (c.h * 0.10) (2 * (c.w * 0.3)) (2 * (c.w * 0.3)) (16 * 30) (16 * 120)]
  ++ ([-60, -45, -30, -20, -10, 0, 10, 20, 30, 45, 60] : List ℤ).flatMap (turnTickCmds c.w c.h)
  ++ [.translate (c.w / 2) (c.w * 0.3 + c.h * 0.10), .rotate (c.roll : ℚ),
      .translate (-(c.w / 2)) (-(c.w * 0.3 + c.h * 0.10)),
      .polygon [(c.w / 2, c.h * 0.10),
                (c.w / 2 - c.h * 0.025 / 2, c.h * 0.10 + c.h * 0.025),
                (c.w / 2 + c.h * 0.025 / 2, c.h * 0.10 + c.h * 0.025)],
      .translate (c.w / 2) (c.w * 0.3 + c.h * 0.10), .rotate (-(c.roll : ℚ)),
      .translate (-(c.w / 2)) (-(c.w * 0.3 + c.h * 0.10))]

/-- `drawAircraftSymbol` (lines 349–368). -/
def drawAircraftSymbol (c : Ctx) : List DrawCmd :=
  [.setPen (.rgba 255 255 0 255) 5,
   .setBrush (.rgba 255 255 0 255),
   .polygon [(c.w * 0.5, c.h * 0.5), (c.w * (0.5 + 0.10 / 2), c.h * (0.5 + 0.05)),
             (c.w * 0.5, c.h * (0.5 + 0.05 / 2)), (c.w * (0.5 - 0.10 / 2), c.h * (0.5 + 0.05))],
   .line (c.w * 0.25) (c.h / 2) (c.w * (0.25 + 0.1)) (c.h / 2),
   .line (c.w * (1 - 0.25 - 0.1)) (c.h / 2) (c.w * (1 - 0.25)) (c.h / 2)]

/-- Pen color of the satellite-count text (lines 133–136). -/
def satPenColor (n : ℤ) : Color := if n < 4 then .red else .green

/-- `drawNumSatellites` (lines 126–137). -/
def drawNumSatellites (c : Ctx) : List DrawCmd :=
  [.setPen (satPenColor c.numSat) 2,
   .textRect 0 0 (c.w * 0.25) (c.h * 0.1) ("GPS: " ++ toString c.numSat ++ " satellites")]

/-- `drawOutputIndicator` (lines 404–438): its body begins with an
unconditional `return` (line 408), so everything below it is dead code and
the method issues no draw call at all. -/
def drawOutputIndicator (_c : Ctx) : List DrawCmd := []

/-! ## Pitch ladder (`drawPitchIndicator`, lines 370–402) -/

/-- `minHeight = 0.15 - pitch * pitchInterval` (line 374). -/
def pitchMinH (p : ℤ) : ℚ := 0.15 - (p : ℚ) * pitchInterval

/-- `maxHeight = 0.85 - pitch * pitchInterval` (line 375). -/
def pitchMaxH (p : ℤ) : ℚ := 0.85 - (p : ℚ) * pitchInterval

/-- The visibility test `minHeight < height < maxHeight` (lines 379, 387,
396), strict on both sides, shared by major lines, 5° sub-lines and the
commanded-pitch marker. -/
def inVisWindow (p : ℤ) (x : ℚ) : Bool := decide (pitchMinH p < x ∧ x < pitchMaxH p)

/-- `height = 0.5 - pitchInterval * 10 * i` (line 378). -/
def majorHeight (i : ℤ) : ℚ := 0.5 - pitchInterval * 10 * (i : ℚ)

/-- `height = height - pitchInterval * 5` (line 386). -/
def subHeight (i : ℤ) : ℚ := majorHeight i - pitchInterval * 5

/-- One major ladder line with its two labels (lines 377–384); the label is
`str(10 * abs(i))`. -/
def pitchMajorCmds (w h : ℚ) (p i : ℤ) : List DrawCmd :=
  let t := toString (10 * |i|)
  if inVisWindow p (majorHeight i) then
    [.line (w * 0.4) (h * majorHeight i) (w * 0.6) (h * majorHeight i),
     .text (w * 0.6 + 5) (h * majorHeight i + 5) t,
     .text (w * 0.4 - 22) (h * majorHeight i + 5) t]
  else []

/-- One 5° sub-line (lines 386–390). -/
def pitchSubCmds (w h : ℚ) (p i : ℤ) : List DrawCmd :=
  if inVisWindow p (subHeight i) then
    [.line (w * 0.45) (h * subHeight i) (w * 0.55) (h * subHeight i)]
  else []

/-- The ladder loop `for i in range(-9, 9)` (lines 376–390). -/
def pitchLadderBase (c : Ctx) : List DrawCmd :=
  (intRange (-9) 9).flatMap
    (fun i => pitchMajorCmds c.w c.h c.pitch i ++ pitchSubCmds c.w c.h c.pitch i)

/-- The `i` of the major lines actually drawn at integer pitch `p`. -/
def pitchMajorsDrawn (p : ℤ) : List ℤ :=
  (intRange (-9) 9).filter (fun i => inVisWindow p (majorHeight i))

/-- The `i` of the 5° sub-lines actually drawn at integer pitch `p`. -/
def pitchSubsDrawn (p : ℤ) : List ℤ :=
  (intRange (-9) 9).filter (fun i => inVisWindow p (subHeight i))

/-- The commanded-pitch line and its `<`/`>` glyphs (lines 394–401), using
the same visibility window; `thetaC` is the commanded pitch in degrees. -/
def pitchCommandMarker (w h : ℚ) (p : ℤ) (thetaC : ℚ) : List DrawCmd :=
  let ht := 0.5 - pitchInterval * thetaC
  if inVisWindow p ht then
    [.line (w * 0.4) (h * ht) (w * 0.6) (h * ht),
     .text (w * 0.6 + 5) (h * ht + 5) "<",
     .text (w * 0.4 - 22) (h * ht + 5) ">"]
  else []

/-- `drawPitchIndicator` (lines 370–402): ladder loop, then — only when
`ConInSub.enabled` — the yellow pen, the commanded marker, and the pen
restore. -/
def drawPitchIndicator (c : Ctx) : List DrawCmd :=
  pitchLadderBase c
  ++ (if c.conInEnabled then
        [DrawCmd.setPen .yellow 4]
        ++ pitchCommandMarker c.w c.h c.pitch c.theta_c_deg
        ++ [DrawCmd.setPen .white 2]
      else [])

/-- Python `int()` applied to a rational: truncation toward zero. -/
def ratTrunc (q : ℚ) : ℤ := if 0 ≤ q then ⌊q⌋ else -⌊-q⌋

/-- `drawBatteryMonitor` (lines 440–454): everything is inside
`if BatterySub.enabled`. -/
def drawBatteryMonitor (c : Ctx) : List DrawCmd :=
  if c.batteryEnabled then
    [.setBrush .red,
     .fillRect 0 (0.8 * c.h) (c.w * 0.13) (0.05 * c.h) .red,
     .fillRect 0 (0.8 * c.h) ((ratTrunc (c.w * 0.13 * c.voltage_percent / 100) : ℚ)) (0.05 * c.h) .green,
     .setPen .black 1,
     .voltageText 0 (0.8 * c.h) (c.w * 0.13) (0.05 * c.h) c.voltage]
  else []

/-! ## The redraw pipeline (`drawArtificialHorizon`, lines 82–124) -/

/-- Entry into the roll+pitch frame (lines 100–103). -/
def enterRollPitch (c : Ctx) : List DrawCmd :=
  [.translate (c.w / 2) (c.h / 2),
   .rotate (-(c.roll : ℚ)),
   .translate (-(c.w / 2)) (-(c.h / 2)),
   .translate 0 (c.h * ((c.pitch : ℚ) * pitchInterval))]

/-- Undo of the pitch translation (line 108). -/
def exitPitch (c : Ctx) : List DrawCmd :=
  [.translate 0 (c.h * (-1 * (c.pitch : ℚ) * pitchInterval))]

/-- Undo of the roll rotation (lines 112–115). -/
def exitRoll (c : Ctx) : List DrawCmd :=
  [.translate (c.w / 2) (c.h / 2),
   .rotate (c.roll : ℚ),
   .translate (-(c.w / 2)) (-(c.h / 2))]

/-- The full redraw pipeline (lines 98–123), in source order. -/
def drawArtificialHorizon (c : Ctx) : List DrawCmd :=
  drawSky c
  ++ enterRollPitch c
  ++ drawGround c
  ++ drawPitchIndicator c
  ++ exitPitch c
  ++ drawTurnIndicator c
  ++ exitRoll c
  ++ drawAircraftSymbol c
  ++ drawAirspeedIndicator c
  ++ drawAltitudeIndicator c
  ++ drawHeadingIndicator c
  ++ drawNumSatellites c
  ++ drawOutputIndicator c
  ++ drawBatteryMonitor c

/-! ## Painter transform semantics

Qt composes each `translate`/`rotate` onto the current world transform:
after `painter.translate(d)`, a point `p` expressed in the new local frame
maps to `T_old (translate_d p)`, so the painter state evolves by
right-composition.  Transforms are real affine maps `p ↦ A p + t`. -/

/-- An affine map of the plane: `(x, y) ↦ (a x + b y + e, c x + d y + f)`. -/
@[ext] structure Affine2 where
  a : ℝ
  b : ℝ
  c : ℝ
  d : ℝ
  e : ℝ
  f : ℝ

namespace Affine2

/-- The identity transform. -/
def ident : Affine2 := ⟨1, 0, 0, 1, 0, 0⟩

/-- Composition: `(m.comp n) p = m (n p)`. -/
noncomputable def comp (m n : Affine2) : Affine2 :=
  ⟨m.a * n.a + m.b * n.c, m.a * n.b + m.b * n.d,
   m.c * n.a + m.d * n.c, m.c * n.b + m.d * n.d,
   m.a * n.e + m.b * n.f + m.e, m.c * n.e + m.d * n.f + m.f⟩

/-- `painter.translate(dx, dy)`. -/
def transl (dx dy : ℝ) : Affine2 := ⟨1, 0, 0, 1, dx, dy⟩

/-- `painter.rotate(θ)` with `θ` in degrees. -/
noncomputable def rotDeg (θ : ℝ) : Affine2 :=
  ⟨Real.cos (θ * Real.pi / 180), -Real.sin (θ * Real.pi / 180),
   Real.sin (θ * Real.pi / 180), Real.cos (θ * Real.pi / 180), 0, 0⟩

theorem comp_assoc (x y z : Affine2) : (x.comp y).comp z = x.comp (y.comp z) := by
  ext <;> simp [comp] <;> ring

theorem comp_ident (x : Affine2) : x.comp ident = x := by
  ext <;> simp [comp, ident]

theorem ident_comp (x : Affine2) : ident.comp x = x := by
  ext <;> simp [comp, ident]

theorem transl_transl (p q r s : ℝ) :
    (transl p q).comp (transl r s) = transl (p + r) (q + s) := by
  ext <;> simp [comp, transl] <;> ring

theorem transl_transl_comp (p q r s : ℝ) (X : Affine2) :
    (transl p q).comp ((transl r s).comp X) = (transl (p + r) (q + s)).comp X := by
  rw [← comp_assoc, transl_transl]

theorem transl_zero : transl 0 0 = ident := rfl

theorem rot_rot (α β : ℝ) : (rotDeg α).comp (rotDeg β) = rotDeg (α + β) := by
  have hs : (α + β) * Real.pi / 180 = α * Real.pi / 180 + β * Real.pi / 180 := by ring
  ext <;> simp [comp, rotDeg, hs, Real.cos_add, Real.sin_add] <;> ring

theorem rot_rot_comp (α β : ℝ) (X : Affine2) :
    (rotDeg α).comp ((rotDeg β).comp X) = (rotDeg (α + β)).comp X := by
  rw [← comp_assoc, rot_rot]

theorem rotDeg_zero : rotDeg 0 = ident := by
  ext <;> simp [rotDeg, ident]

end Affine2

/-- The transform effect of one painter command (identity for everything
except `translate` and `rotate`). -/
noncomputable def cmdTransform : DrawCmd → Affine2
  | .translate dx dy => Affine2.transl (dx : ℝ) (dy : ℝ)
  | .rotate θ => Affine2.rotDeg (θ : ℝ)
  | _ => Affine2.ident

/-- Transform state after issuing a command list from state `T`. -/
noncomputable def applyCmds (T : Affine2) (cs : List DrawCmd) : Affine2 :=
  cs.foldl (fun t cmd => t.comp (cmdTransform cmd)) T

/-- Full painter state: current pen (color, width), brush, and transform. -/
structure PState where
  pen : Color × ℚ
  brush : Color
  transform : Affine2

/-- Effect of one command on the painter state; pure draw calls leave the
state unchanged. -/
noncomputable def stepPainter (st : PState) (cmd : DrawCmd) : PState :=
  match cmd with
  | .setPen color wdt => { st with pen := (color, wdt) }
  | .setBrush color => { st with brush := color }
  | .translate dx dy => { st with transform := st.transform.comp (Affine2.transl (dx : ℝ) (dy : ℝ)) }
  | .rotate θ => { st with transform := st.transform.comp (Affine2.rotDeg (θ : ℝ)) }
  | _ => st

/-- Painter state after issuing a command list. -/
noncomputable def runPainter (st : PState) (cs : List DrawCmd) : PState :=
  cs.foldl stepPainter st

/-- The enter/exit sandwich at the `Affine2` level: a translate – rotate –
translate-back – pitch-translate sequence followed by its reversal composes
to the identity whenever the paired translations and rotations cancel. -/
theorem enter_exit_general (T : Affine2) (cx cy cx2 cy2 v1 v2 t1 t2 : ℝ)
    (hv : v1 + v2 = 0) (ht : t1 + t2 = 0) (hcx : cx + cx2 = 0) (hcy : cy + cy2 = 0) :
    ((((((((T.comp (.transl cx cy)).comp (.rotDeg t1)).comp (.transl cx2 cy2)).comp
        (.transl 0 v1)).comp (.transl 0 v2)).comp (.transl cx cy)).comp
        (.rotDeg t2)).comp (.transl cx2 cy2)) = T := by
  rw [Affine2.comp_assoc, Affine2.comp_assoc, Affine2.comp_assoc, Affine2.comp_assoc,
    Affine2.comp_assoc, Affine2.comp_assoc, Affine2.comp_assoc]
  rw [Affine2.transl_transl_comp, Affine2.transl_transl_comp, Affine2.transl_transl_comp]
  have hX : cx2 + 0 + 0 + cx = 0 := by linarith
  have hY : cy2 + v1 + v2 + cy = 0 := by linarith
  rw [hX, hY, Affine2.transl_zero, Affine2.ident_comp, Affine2.rot_rot_comp, ht,
    Affine2.rotDeg_zero, Affine2.ident_comp, Affine2.transl_transl, hcx, hcy,
    Affine2.transl_zero, Affine2.comp_ident]

/-- A concrete frame context used to instantiate hypotheses of the claim
theorems at sample telemetry: 600×600 viewport, roll 30°, pitch 10°. -/
def sampleCtx : Ctx :=
  { w := 600, h := 600, roll := 30, pitch := 10, speed := 120, altitude := 1500,
    heading := 270, numSat := 6, conComEnabled := false, va_c := 0, h_c := 0,
    conInEnabled := false, theta_c_deg := 0, batteryEnabled := false,
    voltage := 0, voltage_percent := 0 }

/-! # Claims -/

/-- C1: for every roll value in [-180, 180] and every pitch, entering the
roll+pitch frame (translate the viewport center, rotate by `-roll`,
translate back, translate vertically by `height*pitch*pitchInterval`) and
then exiting it (undo the pitch translation, translate to the center,
rotate by `+roll`, translate back) within one redraw composes to the
identity transform, so the painter transform state after exit equals its
state before entry. -/
theorem roll_pitch_frame_enter_exit_identity (c : Ctx) (T : Affine2)
    (_h1 : -180 ≤ c.roll) (_h2 : c.roll ≤ 180) :
    applyCmds T (enterRollPitch c ++ exitPitch c ++ exitRoll c) = T := by
  simp only [enterRollPitch, exitPitch, exitRoll, applyCmds, List.cons_append,
    List.nil_append, List.foldl_cons, List.foldl_nil, cmdTransform]
  push_cast
  exact enter_exit_general T _ _ _ _ _ _ _ _ (by ring) (by ring) (by ring) (by ring)

/-- Witness for C1 at `sampleCtx` (roll 30°, pitch 10°), starting from the
identity transform. -/
theorem roll_pitch_frame_enter_exit_identity_witness :
    applyCmds Affine2.ident (enterRollPitch sampleCtx ++ exitPitch sampleCtx ++ exitRoll sampleCtx)
      = Affine2.ident :=
  roll_pitch_frame_enter_exit_identity sampleCtx Affine2.ident (by decide) (by decide)

/-- C7: the satellite-count text renders in the warning color (red) exactly
when fewer than 4 satellites are visible and in the nominal color (green)
exactly when at least 4 are; in particular 3 is red and 4 is green. -/
theorem satellite_color_threshold (n : ℤ) :
    (satPenColor n = Color.red ↔ n < 4) ∧ (satPenColor n = Color.green ↔ 4 ≤ n) ∧
    satPenColor 3 = Color.red ∧ satPenColor 4 = Color.green := by
  refine ⟨?_, ?_, by norm_num [satPenColor], by norm_num [satPenColor]⟩ <;>
    · unfold satPenColor
      split_ifs with hlt <;> simp <;> omega

/-- C8: disabling any combination of the optional channels (commanded
speed/altitude, commanded pitch, battery) leaves every other renderer's
output unchanged, empties only the dependent overlay (battery bar,
commanded markers), and the redraw still executes every renderer of the
pipeline in order and completes the frame. -/
theorem optional_channels_suppress_only_dependent (c : Ctx) (b1 b2 b3 : Bool) :
    drawSky (setFlags c b1 b2 b3) = drawSky c ∧
    drawGround (setFlags c b1 b2 b3) = drawGround c ∧
    drawTurnIndicator (setFlags c b1 b2 b3) = drawTurnIndicator c ∧
    drawAircraftSymbol (setFlags c b1 b2 b3) = drawAircraftSymbol c ∧
    drawHeadingIndicator (setFlags c b1 b2 b3) = drawHeadingIndicator c ∧
    drawNumSatellites (setFlags c b1 b2 b3) = drawNumSatellites c ∧
    pitchLadderBase (setFlags c b1 b2 b3) = pitchLadderBase c ∧
    speedTapePre (setFlags c b1 b2 b3) = speedTapePre c ∧
    speedTapePost (setFlags c b1 b2 b3) = speedTapePost c ∧
    altTapePre (setFlags c b1 b2 b3) = altTapePre c ∧
    altTapePost (setFlags c b1 b2 b3) = altTapePost c ∧
    drawBatteryMonitor (setFlags c b1 b2 false) = [] ∧
    drawAirspeedIndicator (setFlags c false b2 b3) = speedTapePre c ++ speedTapePost c ∧
    drawAltitudeIndicator (setFlags c false b2 b3) = altTapePre c ++ altTapePost c ∧
    drawPitchIndicator (setFlags c b1 false b3) = pitchLadderBase c ∧
    drawArtificialHorizon (setFlags c false false false) =
      drawSky c ++ enterRollPitch c ++ drawGround c ++ pitchLadderBase c ++ exitPitch c
        ++ drawTurnIndicator c ++ exitRoll c ++ drawAircraftSymbol c
        ++ (speedTapePre c ++ speedTapePost c) ++ (altTapePre c ++ altTapePost c)
        ++ drawHeadingIndicator c ++ drawNumSatellites c := by
  refine ⟨rfl, rfl, rfl, rfl, rfl, rfl, rfl, rfl, rfl, rfl, rfl, rfl, ?_, ?_, ?_, ?_⟩
  · simp only [drawAirspeedIndicator, setFlags, Bool.false_eq_true, if_false,
      List.nil_append, List.append_nil]
    rfl
  · simp only [drawAltitudeIndicator, setFlags, Bool.false_eq_true, if_false,
      List.nil_append, List.append_nil]
    rfl
  · simp only [drawPitchIndicator, setFlags, Bool.false_eq_true, if_false,
      List.nil_append, List.append_nil]
    rfl
  · simp only [drawArtificialHorizon, drawAirspeedIndicator, drawAltitudeIndicator,
      drawPitchIndicator, drawBatteryMonitor, drawOutputIndicator, setFlags,
      Bool.false_eq_true, if_false, List.nil_append, List.append_nil, List.append_assoc]
    rfl

/-- C9: `drawOutputIndicator` returns unconditionally before issuing any
drawing command: it emits no draw calls, leaves any painter state (pen,
brush, transform) unchanged, and the redraw pipeline that invokes it
produces exactly the commands of the other renderers. -/
theorem output_indicator_inert (c : Ctx) (st : PState) :
    drawOutputIndicator c = [] ∧ runPainter st (drawOutputIndicator c) = st ∧
    drawArtificialHorizon c =
      drawSky c ++ enterRollPitch c ++ drawGround c ++ drawPitchIndicator c ++ exitPitch c
        ++ drawTurnIndicator c ++ exitRoll c ++ drawAircraftSymbol c
        ++ drawAirspeedIndicator c ++ drawAltitudeIndicator c ++ drawHeadingIndicator c
        ++ drawNumSatellites c ++ drawBatteryMonitor c := by
  refine ⟨rfl, rfl, ?_⟩
  simp [drawArtificialHorizon, drawOutputIndicator, List.append_assoc]

/-- C2 (amended): on the heading tape only multiples of 10 are drawn, and
for such a candidate a compass-point label is substituted for the numeric
label exactly when the wrapped value is one of 0, 90, 180 or 270 (N/E/S/W).
The dict's intercardinal keys 45, 135, 215 and 315 are never multiples of
10, so NE/SE/SW/NW — in particular "SW", whose key is 215 rather than
225 — are never substituted; every other drawn multiple of 10 keeps its
numeric label. -/
theorem heading_compass_substitution (i : ℤ) (hi : i % 10 = 0) :
    ((directions (normalize360 i)).isSome ↔
      normalize360 i = 0 ∨ normalize360 i = 90 ∨ normalize360 i = 180 ∨ normalize360 i = 270) ∧
    directions (normalize360 i) ≠ some "SW" ∧
    (directions (normalize360 i) = none → headingText i = toString (normalize360 i)) := by
  have hn : normalize360 i % 10 = 0 := by unfold normalize360; split_ifs <;> omega
  unfold headingText directions
  split_ifs with hc1 hc2 hc3 hc4 hc5 hc6 hc7 hc8 <;> simp_all

/-- Witness for C2's amended theorem at the drawn candidate 90. -/
theorem heading_compass_substitution_witness :
    (directions (normalize360 90)).isSome ↔
      normalize360 90 = 0 ∨ normalize360 90 = 90 ∨ normalize360 90 = 180 ∨ normalize360 90 = 270 :=
  (heading_compass_substitution 90 (by decide)).1

/-- C2 counterexample: the claim places "SW" exactly at a normalized value
of 225, but the code labels candidate 225 with the numeric text "225"
(never "SW"); moreover 225 is not even a drawn candidate at heading 225
(ticks are only drawn at multiples of 10), and the dict's "SW" key is 215,
which is likewise never a multiple of 10. -/
theorem heading_sw_counterexample :
    headingText 225 = "225" ∧ headingText 225 ≠ "SW" ∧
    (225 : ℤ) ∉ headingTickValues 225 ∧ directions 215 = some "SW" ∧ (215 : ℤ) % 10 ≠ 0 := by
  decide

/-- C3 (amended): the tape loops enumerate `range(v-29, v+29)` (resp.
`range(v-49, v+49)`), i.e. the half-open window from −29 to +28 (resp. −49
to +48) around the current value; a tick is drawn exactly for the
candidates in that window which are multiples of 10, with speed candidates
below zero additionally suppressed (altitude and heading candidates below
zero are not suppressed). -/
theorem tape_tick_windows (v i : ℤ) :
    (i ∈ speedTickValues v ↔ v - 29 ≤ i ∧ i ≤ v + 28 ∧ i % 10 = 0 ∧ 0 ≤ i) ∧
    (i ∈ altitudeTickValues v ↔ v - 29 ≤ i ∧ i ≤ v + 28 ∧ i % 10 = 0) ∧
    (i ∈ headingTickValues v ↔ v - 49 ≤ i ∧ i ≤ v + 48 ∧ i % 10 = 0) := by
  refine ⟨?_, ?_, ?_⟩ <;>
    · simp only [speedTickValues, altitudeTickValues, headingTickValues, List.mem_filter,
        mem_intRange, decide_eq_true_eq]
      omega

/-- C3 counterexample: at speed 1 the candidate 30 lies in the claimed
±29 window, is a multiple of 10 and non-negative, yet no tick is drawn for
it (the Python `range` stops at +28); likewise candidate 50 at heading 1,
and candidate 30 at altitude 1. -/
theorem tape_tick_window_counterexample :
    (30 : ℤ) ∉ speedTickValues 1 ∧
    ((1 : ℤ) - 29 ≤ 30 ∧ (30 : ℤ) ≤ 1 + 29 ∧ (30 : ℤ) % 10 = 0 ∧ (0 : ℤ) ≤ 30) ∧
    (50 : ℤ) ∉ headingTickValues 1 ∧
    ((1 : ℤ) - 49 ≤ 50 ∧ (50 : ℤ) ≤ 1 + 49 ∧ (50 : ℤ) % 10 = 0) ∧
    (30 : ℤ) ∉ altitudeTickValues 1 := by decide

/-- C4 (amended): the pitch ladder loop is `range(-9, 9)`, so a major
graduated line (at height fraction `0.5 - pitchInterval*10*i`, spanning 0.4
to 0.6 of the width, per `pitchMajorCmds`) is drawn exactly for the pitch
multiples of 10 from −90 to +80 inclusive that pass the visibility-window
test — the +90 marker is never enumerated — plus a shorter 5° sub-line
(spanning 0.45 to 0.55, per `pitchSubCmds`) under the same test. -/
theorem pitch_ladder_range (p i : ℤ) :
    (i ∈ pitchMajorsDrawn p ↔ -9 ≤ i ∧ i ≤ 8 ∧ inVisWindow p (majorHeight i) = true) ∧
    (i ∈ pitchSubsDrawn p ↔ -9 ≤ i ∧ i ≤ 8 ∧ inVisWindow p (subHeight i) = true) ∧
    (inVisWindow p (majorHeight i) = true ↔
      pitchMinH p < majorHeight i ∧ majorHeight i < pitchMaxH p) := by
  refine ⟨?_, ?_, by simp [inVisWindow]⟩ <;>
    · simp only [pitchMajorsDrawn, pitchSubsDrawn, List.mem_filter, mem_intRange]
      constructor
      · rintro ⟨⟨ha, hb⟩, hcnd⟩
        exact ⟨ha, by omega, hcnd⟩
      · rintro ⟨ha, hb, hcnd⟩
        exact ⟨⟨ha, by omega⟩, hcnd⟩

/-- C4 counterexample: at pitch 70 the +90 marker (i = 9) passes the
visibility-window test and 90 lies within the claim's −90..+90 range, yet
no major line is drawn for it, because `range(-9, 9)` stops at i = 8. -/
theorem pitch_ladder_range_counterexample :
    (9 : ℤ) ∉ pitchMajorsDrawn 70 ∧ inVisWindow 70 (majorHeight 9) = true ∧
    ((-90 : ℤ) ≤ 10 * 9 ∧ (10 * 9 : ℤ) ≤ 90) := by
  refine ⟨?_, ?_, by norm_num⟩
  · simp only [pitchMajorsDrawn, List.mem_filter, mem_intRange]
    omega
  · simp only [inVisWindow, decide_eq_true_eq, pitchMinH, pitchMaxH, majorHeight, pitchInterval]
    norm_num

/-- C5: a pitch-ladder marker (major, sub, or commanded) is drawn only if
its height fraction lies strictly between `0.15 - pitch*pitchInterval` and
`0.85 - pitch*pitchInterval`; a height equal to either boundary is
excluded, every drawn major/sub marker passes the strict test, and the
commanded-pitch marker is emitted exactly when its height passes it. -/
theorem pitch_visibility_strict (p : ℤ) (x w h thetaC : ℚ) :
    (inVisWindow p x = true ↔ pitchMinH p < x ∧ x < pitchMaxH p) ∧
    inVisWindow p (pitchMinH p) = false ∧
    inVisWindow p (pitchMaxH p) = false ∧
    (pitchMajorsDrawn p).all (fun i => inVisWindow p (majorHeight i)) = true ∧
    (pitchSubsDrawn p).all (fun i => inVisWindow p (subHeight i)) = true ∧
    (pitchCommandMarker w h p thetaC ≠ [] ↔
      inVisWindow p (0.5 - pitchInterval * thetaC) = true) := by
  refine ⟨by simp [inVisWindow], by simp [inVisWindow], by simp [inVisWindow], ?_, ?_, ?_⟩
  · simp [pitchMajorsDrawn, List.all_eq_true, List.mem_filter]
  · simp [pitchSubsDrawn, List.all_eq_true, List.mem_filter]
  · simp only [pitchCommandMarker]
    split_ifs with hc <;> simp_all

/-- C6: the commanded-speed (resp. commanded-altitude) triangle is drawn
exactly when the mapped y-coordinate `height*0.5 + (current - commanded) *
0.01 * height` lies within the panel's vertical extent inclusive of both
edges — equivalently, for positive heights, when the commanded value is
within ±30 units of the current one, edges (±30) included; outside the
extent nothing is emitted, and when drawn the triangle sits at the
unclamped y-coordinate. -/
theorem commanded_marker_inclusive (w h va_c h_c : ℚ) (speed altitude : ℤ) (hh : 0 < h) :
    (speedCommandMarker w h speed va_c ≠ [] ↔
      (h - h * 0.6) / 2 ≤ h * 0.5 + ((speed : ℚ) - va_c) * 0.01 * h ∧
      h * 0.5 + ((speed : ℚ) - va_c) * 0.01 * h ≤ (h + h * 0.6) / 2) ∧
    (speedCommandMarker w h speed va_c ≠ [] ↔
      -30 ≤ (speed : ℚ) - va_c ∧ (speed : ℚ) - va_c ≤ 30) ∧
    speedCommandMarker w h speed ((speed : ℚ) + 30) ≠ [] ∧
    speedCommandMarker w h speed ((speed : ℚ) - 30) ≠ [] ∧
    (speedCommandMarker w h speed va_c = [] ∨
      speedCommandMarker w h speed va_c =
        [.convexPolygon [(w * 0.13, h * 0.5 + ((speed : ℚ) - va_c) * 0.01 * h),
          (w * 0.13 + w * 0.02, h * 0.01 + (h * 0.5 + ((speed : ℚ) - va_c) * 0.01 * h)),
          (w * 0.13 + w * 0.02, -(h * 0.01) + (h * 0.5 + ((speed : ℚ) - va_c) * 0.01 * h))]]) ∧
    (altitudeCommandMarker w h altitude h_c ≠ [] ↔
      (h - h * 0.6) / 2 ≤ h * 0.5 + ((altitude : ℚ) - h_c) * 0.01 * h ∧
      h * 0.5 + ((altitude : ℚ) - h_c) * 0.01 * h ≤ (h + h * 0.6) / 2) ∧
    (altitudeCommandMarker w h altitude h_c ≠ [] ↔
      -30 ≤ (altitude : ℚ) - h_c ∧ (altitude : ℚ) - h_c ≤ 30) ∧
    altitudeCommandMarker w h altitude ((altitude : ℚ) + 30) ≠ [] ∧
    altitudeCommandMarker w h altitude ((altitude : ℚ) - 30) ≠ [] ∧
    (altitudeCommandMarker w h altitude h_c = [] ∨
      altitudeCommandMarker w h altitude h_c =
        [.convexPolygon [(w - w * 0.13, h * 0.5 + ((altitude : ℚ) - h_c) * 0.01 * h),
          (w - w * 0.13 - w * 0.02, h * 0.01 + (h * 0.5 + ((altitude : ℚ) - h_c) * 0.01 * h)),
          (w - w * 0.13 - w * 0.02, -(h * 0.01) + (h * 0.5 + ((altitude : ℚ) - h_c) * 0.01 * h))]]) := by
  have key : ∀ d : ℚ, ((h - h * 0.6) / 2 ≤ h * 0.5 + d * 0.01 * h ∧
      h * 0.5 + d * 0.01 * h ≤ (h + h * 0.6) / 2) ↔ (-30 ≤ d ∧ d ≤ 30) := by
    intro d
    constructor
    · rintro ⟨u1, u2⟩
      constructor <;> nlinarith
    · rintro ⟨u1, u2⟩
      constructor <;> nlinarith
  refine ⟨?_, ?_, ?_, ?_, ?_, ?_, ?_, ?_, ?_, ?_⟩
  · simp only [speedCommandMarker]
    split_ifs with hc <;> simp_all
  · simp only [speedCommandMarker]
    split_ifs with hc <;> simp_all [key]
  · simp only [speedCommandMarker]
    rw [if_pos]
    · simp
    · exact (key _).2 (by constructor <;> linarith)
  · simp only [speedCommandMarker]
    rw [if_pos]
    · simp
    · exact (key _).2 (by constructor <;> linarith)
  · simp only [speedCommandMarker]
    split_ifs with hc
    · right; rfl
    · left; rfl
  · simp only [altitudeCommandMarker]
    split_ifs with hc <;> simp_all
  · simp only [altitudeCommandMarker]
    split_ifs with hc <;> simp_all [key]
  · simp only [altitudeCommandMarker]
    rw [if_pos]
    · simp
    · exact (key _).2 (by constructor <;> linarith)
  · simp only [altitudeCommandMarker]
    rw [if_pos]
    · simp
    · exact (key _).2 (by constructor <;> linarith)
  · simp only [altitudeCommandMarker]
    split_ifs with hc
    · right; rfl
    · left; rfl

/-- Witness for C6 at a 600×600 viewport: commanding exactly 30 units above
the current speed maps the marker to the panel's top edge, where it is
included. -/
theorem commanded_marker_inclusive_witness :
    speedCommandMarker 600 600 120 (((120 : ℤ) : ℚ) + 30) ≠ [] :=
  (commanded_marker_inclusive 600 600 100 1490 120 1500 (by norm_num)).2.2.1

/-- C10 (amended): for every drawn heading candidate the tick's x-position
is computed from the unnormalized candidate as `width*0.5 -
(heading - i)*0.01*width`, before the modulo-360 wrap; the wrap determines
only the label text and — through the text's length — the label's
horizontal centering offset `x + 7 - 8*len(text)`; the tick line itself is
identical with or without the wrap. -/
theorem heading_tick_position_prewrap (w h : ℚ) (hd i : ℤ) (hi : i % 10 = 0) :
    headingCandidateCmds w h hd i =
      [DrawCmd.line (w * 0.5 - ((hd - i : ℤ) : ℚ) * 0.01 * w) (h - h * 0.1)
        (w * 0.5 - ((hd - i : ℤ) : ℚ) * 0.01 * w) (h - h * 0.1 + 5),
       DrawCmd.text (w * 0.5 - ((hd - i : ℤ) : ℚ) * 0.01 * w + 7 - 8 * ((headingText i).length : ℚ))
         (h - h * 0.1 + 22) (headingText i)] ∧
    (headingCandidateCmds w h hd i).head? = (headingCandidateCmdsNoWrap w h hd i).head? := by
  constructor <;> simp [headingCandidateCmds, headingCandidateCmdsNoWrap, hi]

/-- Witness for C10's amended theorem at heading 355, candidate 360. -/
theorem heading_tick_position_prewrap_witness :
    (headingCandidateCmds 600 600 355 360).head? =
      (headingCandidateCmdsNoWrap 600 600 355 360).head? :=
  (heading_tick_position_prewrap 600 600 355 360 (by decide)).2

/-- C10 counterexample: at heading 355, candidate 360, the wrap changes the
label from "360" to "N", and with it the label's drawn x-position (329
instead of 313, since the draw point is `x + 7 - 8*len(text)`); only the
tick line is unchanged — refuting "never the … label position". -/
theorem heading_label_position_counterexample :
    headingCandidateCmds 600 600 355 360 =
      [DrawCmd.line 330 540 330 545, DrawCmd.text 329 562 "N"] ∧
    headingCandidateCmdsNoWrap 600 600 355 360 =
      [DrawCmd.line 330 540 330 545, DrawCmd.text 313 562 "360"] ∧
    (329 : ℚ) ≠ 313 := by
  refine ⟨?_, ?_, by norm_num⟩
  · have l1 : ("N" : String).length = 1 := by decide
    norm_num [headingCandidateCmds, headingText, normalize360, directions, l1]
  · have l2 : toString (360 : ℤ) = "360" := by decide
    have l3 : ("360" : String).length = 3 := by decide
    norm_num [headingCandidateCmdsNoWrap, directions, l2, l3]

end ArtificialHorizon
